import Mathlib

/-!
Shallow embedding of the animautomata animation library (TypeScript) in Lean 4.

Conventions used throughout:

* JavaScript `number` values are modelled as `ℚ` where the relevant code is
  exact arithmetic (the progress clock, colour composition, offsets) and as
  `ℝ` where the code uses transcendental functions (`Math.sin`, `Math.sqrt`,
  `Math.atan`, `Math.PI`): the easing functions and the lemniscate geometry.
* The JavaScript values `Infinity` (the defaults of `nIterations` and
  `mutationInterval`) are modelled with `WithTop ℚ`, whose `⊤` compares the
  same way `Infinity` does against finite values in the comparisons the
  source performs.
* JavaScript `%` is the truncating remainder; it is embedded as `jsRem`
  below.  The library's `modulo` helper (`((n % m) + m) % m`) is embedded
  on top of it.
* TypeScript methods that can throw are embedded as `Except String`
  results; methods with no `throw` statement on their path are embedded as
  total functions.
* Methods are embedded as functions taking the object state (or just the
  fields they read) explicitly; canvas/context side effects that do not
  touch the modelled state are dropped, and the `mutate()` hook invocation
  (a no-op on the clock state in the base class) is made observable through
  the instrumentation counter `mutateCount`.
-/

namespace Animautomata

/-- `utils.clamp`: `Math.max(min, Math.min(max, candidate))`. -/
def clamp (lo candidate hi : ℚ) : ℚ :=
  max lo (min hi candidate)

/-- JavaScript truncation toward zero (the rounding used by the `%` operator). -/
def ratTrunc (q : ℚ) : ℤ :=
  if 0 ≤ q then ⌊q⌋ else ⌈q⌉

/-- The JavaScript `%` operator on numbers: truncating remainder. -/
def jsRem (a b : ℚ) : ℚ :=
  a - b * (ratTrunc (a / b) : ℚ)

/-- `utils.modulo`: mathematical modulo, written `((n % m) + m) % m` in the source. -/
def modulo (n m : ℚ) : ℚ :=
  jsRem (jsRem n m + m) m

/-- The JavaScript `%` operator restricted to integers, `Int.tmod` (truncating). -/
def jsRemInt (a b : ℤ) : ℤ :=
  Int.tmod a b

/-- `utils.modulo` on integer arguments (used for colour-array indexing). -/
def moduloInt (n m : ℤ) : ℤ :=
  jsRemInt (jsRemInt n m + m) m

/-- JavaScript `Number.prototype.toString(16)` for a natural number:
lowercase hex digits. -/
def toHexString (n : ℕ) : String :=
  (Nat.toDigits 16 n).asString

/-- JavaScript `String.prototype.padStart(2, "0")`. -/
def padStart2 (s : String) : String :=
  if s.length = 0 then "00" else if s.length = 1 then "0" ++ s else s

/-- The mutable state of the abstract `Animautomaton` class (the fields the
embedded methods read or write).  Canvas, context, id and colour-cache fields
are omitted: no modelled method's result depends on them.  `mutateCount` is
instrumentation: it counts the invocations of the `mutate()` hook, which in
the base class is a no-op on all other fields. -/
structure Anim where
  currProgress : ℚ
  lastProgress : ℚ
  currIteration : ℚ
  nIterations : WithTop ℚ
  fps : ℚ
  cycleDuration_ms : ℚ
  rest : ℚ
  paused : Bool
  start : ℚ
  lastDraw : ℚ
  lastMutationTimestamp : ℚ
  pauseTimestamp : ℚ
  pauseDuration : ℚ
  mutationInterval : WithTop ℚ
  opacity : ℚ
  opacityDelta : ℚ
  colours : List String
  timingFunction : String
  mutateCount : ℕ

/-- The default configuration set by the `Animautomaton` constructor
(timestamps relative to a construction instant `t0 = performance.now()`). -/
def defaultAnim (t0 : ℚ) : Anim where
  currProgress := 0
  lastProgress := 0
  currIteration := 0
  nIterations := ⊤
  fps := 60
  cycleDuration_ms := 1500
  rest := 0
  paused := false
  start := t0
  lastDraw := t0
  lastMutationTimestamp := t0
  pauseTimestamp := 0
  pauseDuration := 0
  mutationInterval := ⊤
  opacity := 1
  opacityDelta := 0
  colours := ["#000000"]
  timingFunction := "sinusoidal"
  mutateCount := 0

/-- The partial-update record accepted by `Animautomaton.setConfig`
(`Partial<AnimautomatonOps>` restricted to the modelled fields). `none`
models an omitted property. -/
structure AnimOps where
  currProgress? : Option ℚ := none
  lastProgress? : Option ℚ := none
  currIteration? : Option ℚ := none
  nIterations? : Option (WithTop ℚ) := none
  fps? : Option ℚ := none
  cycleDuration_ms? : Option ℚ := none
  rest? : Option ℚ := none
  paused? : Option Bool := none
  mutationInterval? : Option (WithTop ℚ) := none
  opacity? : Option ℚ := none
  opacityDelta? : Option ℚ := none
  colours? : Option (List String) := none
  timingFunction? : Option String := none

/-- `Animautomaton.setConfig`: every field is merged with
`ops.field ?? this.field` and stored without any validation. -/
def setConfig (s : Anim) (ops : AnimOps) : Anim where
  currProgress := ops.currProgress?.getD s.currProgress
  lastProgress := ops.lastProgress?.getD s.lastProgress
  currIteration := ops.currIteration?.getD s.currIteration
  nIterations := ops.nIterations?.getD s.nIterations
  fps := ops.fps?.getD s.fps
  cycleDuration_ms := ops.cycleDuration_ms?.getD s.cycleDuration_ms
  rest := ops.rest?.getD s.rest
  paused := ops.paused?.getD s.paused
  start := s.start
  lastDraw := s.lastDraw
  lastMutationTimestamp := s.lastMutationTimestamp
  pauseTimestamp := s.pauseTimestamp
  pauseDuration := s.pauseDuration
  mutationInterval := ops.mutationInterval?.getD s.mutationInterval
  opacity := ops.opacity?.getD s.opacity
  opacityDelta := ops.opacityDelta?.getD s.opacityDelta
  colours := ops.colours?.getD s.colours
  timingFunction := ops.timingFunction?.getD s.timingFunction
  mutateCount := s.mutateCount

/-- Construction of a concrete animautomaton: the parent constructor sets
the defaults and the child constructor immediately applies the supplied
options through `setConfig` (`if (ops) this.setConfig(ops)`). -/
def construct (t0 : ℚ) (ops : AnimOps) : Anim :=
  setConfig (defaultAnim t0) ops

/-- `Animautomaton.pause`: sets `paused` and records the pause timestamp. -/
def pause (s : Anim) (now : ℚ) : Anim :=
  { s with paused := true, pauseTimestamp := now }

/-- `Animautomaton.seek(frames)`: clamped relative move of the progress
clock; the snap-to-zero test `if (this.lastProgress === 1)` runs after the
clamped delta has been stored.  The trailing `this.draw()` has no effect on
the modelled state. -/
def seek (s : Anim) (frames : ℚ) : Anim :=
  let msPerFrame := 1000 / s.fps
  let progressPerFrame := msPerFrame / s.cycleDuration_ms
  let last := s.currProgress
  let clamped := clamp 0 (s.currProgress + frames * progressPerFrame) 1
  let curr := if last = 1 then 0 else clamped
  { s with lastProgress := last, currProgress := curr }

/-- `Animautomaton.step`: `seek(1)`. -/
def step (s : Anim) : Anim :=
  seek s 1

/-- `Animautomaton.animate` at wall-clock instant `now` (`performance.now()`),
as a state transformation.  `requestAnimationFrame` re-arming and `draw()`
are outside the modelled state. -/
def animate (s : Anim) (now : ℚ) : Anim :=
  if s.paused then s
  else
    let delta := now - s.lastDraw
    let msPerFrame := 1000 / s.fps
    if delta < msPerFrame then s
    else
      let mutationDelta := now - s.lastMutationTimestamp
      let s1 :=
        if ((mutationDelta : ℚ) : WithTop ℚ) ≥ s.mutationInterval then
          { s with mutateCount := s.mutateCount + 1, lastMutationTimestamp := now }
        else s
      let newProg :=
        modulo (now - s1.pauseDuration - s1.start) s1.cycleDuration_ms /
          s1.cycleDuration_ms
      let s2 := { s1 with lastProgress := s1.currProgress, currProgress := newProg }
      let s3 :=
        if s2.lastProgress > s2.currProgress then
          let s2i := { s2 with currIteration := s2.currIteration + 1 }
          if ((s2i.currIteration : ℚ) : WithTop ℚ) ≥ s2i.nIterations then
            pause s2i now
          else s2i
        else s2
      { s3 with lastDraw := now }

/-- `Animautomaton.ctxSetColour(offset)`: the colour string assigned to the
context stroke and fill styles: the base colour at the wrapped index with a
two-digit lowercase hex alpha byte appended, the byte being
`Math.floor(Math.max(0, opacity - (colours.length - 1 - modOffset) * opacityDelta) * 255)`. -/
def ctxSetColour (colours : List String) (opacity opacityDelta : ℚ) (offset : ℤ) : String :=
  let modOffset := moduloInt offset (colours.length : ℤ)
  let alpha : ℤ :=
    ⌊(max 0 (opacity - ((colours.length : ℚ) - 1 - (modOffset : ℚ)) * opacityDelta)) * 255⌋
  let opacityString := padStart2 (toHexString alpha.toNat)
  (colours.getD modOffset.toNat "") ++ opacityString

/-- JavaScript truncation toward zero on a real argument. -/
noncomputable def realTrunc (x : ℝ) : ℤ :=
  if 0 ≤ x then ⌊x⌋ else ⌈x⌉

/-- The JavaScript `%` operator on real-valued arguments. -/
noncomputable def jsRemR (a b : ℝ) : ℝ :=
  a - b * (realTrunc (a / b) : ℝ)

/-- The offset wrap shared by all built-in easing functions:
`offset ? (this.currProgress + 1 + offset) % 1 : this.currProgress`.
JavaScript truthiness makes `offset = 0` (and an absent offset) take the
second branch, so an absent offset is modelled as `0`. -/
noncomputable def offsetProgress (currProgress offset : ℝ) : ℝ :=
  if offset = 0 then currProgress else jsRemR (currProgress + 1 + offset) 1

/-- `Animautomaton.getProgressLinear`. -/
noncomputable def getProgressLinear (currProgress rest offset : ℝ) : ℝ :=
  min 1 (offsetProgress currProgress offset / (1 - rest))

/-- `Animautomaton.getProgressExponential` (used with `pow = 2, 3`). -/
noncomputable def getProgressExponential (pow : ℕ) (currProgress rest offset : ℝ) : ℝ :=
  (min 1 (offsetProgress currProgress offset / (1 - rest))) ^ pow

/-- `Animautomaton.getProgressSinusoidal`. -/
noncomputable def getProgressSinusoidal (currProgress rest offset : ℝ) : ℝ :=
  0.5 + Real.sin ((min 1 (offsetProgress currProgress offset / (1 - rest)) - 0.5) * Real.pi) / 2

/-- `Animautomaton.getProgress`: dispatch on the `timingFunction` string.
The runtime value may be any string, so the scrutinee is embedded as
`String`; the `switch` has cases for `"sinusoidal"`, `"quadratic"`,
`"cubic"` and `"custom"` (which throws when the custom function is null),
and a `default` case that evaluates the linear transformation.  The
exception effect is an `Except` result. -/
noncomputable def getProgress (timingFunction : String) (custom : Option (ℝ → ℝ))
    (currProgress rest offset : ℝ) : Except String ℝ :=
  if timingFunction = "sinusoidal" then
    .ok (getProgressSinusoidal currProgress rest offset)
  else if timingFunction = "quadratic" then
    .ok (getProgressExponential 2 currProgress rest offset)
  else if timingFunction = "cubic" then
    .ok (getProgressExponential 3 currProgress rest offset)
  else if timingFunction = "custom" then
    match custom with
    | none => .error "Custom timing function does not exist."
    | some f => .ok (f offset)
  else
    .ok (getProgressLinear currProgress rest offset)

/-- The per-arc radial offsets computed by `Antiquum.calculateOffsets`. -/
structure Offsets where
  outer : ℚ
  inner : ℚ
  mid : ℚ
  deriving DecidableEq

/-- `Antiquum.calculateOffsets(arc_i, arcWidthDiff)`: the anchor switch over
the runtime string value of `arcAnchor`; an unrecognized anchor throws
`"Invalid arcAnchor value: " + anchor`, and each computed offset is floored
at 0 by `Math.max(offset, 0)`. -/
def calculateOffsets (radius : ℚ) (arcs : ℕ) (radiusDelta arcWidth : ℚ)
    (arcAnchor : String) (arc_i : ℕ) (arcWidthDiff : ℚ) : Except String Offsets :=
  let rad := radius - (((arcs : ℤ) - ((arc_i : ℤ) + 1) : ℤ) : ℚ) * radiusDelta * radius
  if arcAnchor = "centre" then
    .ok { outer := max (rad - arcWidthDiff / 2) 0
          inner := max (rad - arcWidth + arcWidthDiff / 2) 0
          mid := max (rad - arcWidthDiff / 2 - (arcWidth - arcWidthDiff) / 2) 0 }
  else if arcAnchor = "inner" then
    .ok { outer := max (rad - arcWidthDiff) 0
          inner := max (rad - arcWidth) 0
          mid := max (rad - arcWidthDiff - (arcWidth - arcWidthDiff) / 2) 0 }
  else if arcAnchor = "outer" then
    .ok { outer := max rad 0
          inner := max (rad - (arcWidth - arcWidthDiff)) 0
          mid := max (rad - (arcWidth - arcWidthDiff) / 2) 0 }
  else
    .error ("Invalid arcAnchor value: " ++ arcAnchor)

/-- One path-building primitive issued to the rendering context. -/
inductive PathCmd (α : Type) where
  | moveTo (p : α)
  | lineTo (p : α)
  | circTo (src dst center : α)
  deriving DecidableEq

/-- The tail end-cap branch shared by `drawContainedArc` and
`drawTailArcSection`: `if (this.lineCap == "rounded" || this.tailCap == "rounded")`
routes through the two guide beziers, otherwise a straight `lineTo` from the
tail-inner to the tail-outer point.  The cap fields hold runtime strings
(`tailCap` is nullable), so they are embedded as `String` / `Option String`. -/
def tailCapCommands {α : Type} (lineCap : String) (tailCap : Option String)
    (inner outer mid guide : α) : List (PathCmd α) :=
  if lineCap = "rounded" ∨ tailCap = some "rounded" then
    [.circTo inner guide mid, .circTo guide outer mid]
  else
    [.lineTo outer]

/-- The kinds of sub-path emitted by one iteration of the section walk. -/
inductive DrawEv where
  | tailEv
  | leadEv
  | midOuter
  | midInner
  | containedEv
  deriving DecidableEq, BEq

/-- How the section walk ended. -/
inductive WalkExit where
  | stopCondition
  | containedBreak
  | boundReached
  deriving DecidableEq, BEq

/-- The observable outcome of a section walk: the emitted sub-paths in
order, and how the loop exited. -/
structure WalkResult where
  events : List DrawEv
  exit : WalkExit
  deriving DecidableEq, BEq

/-- The loop body of `Antiquum.draw`'s section walk (`for (let i = 0; i < 6; i++)`
over `currSection`, `hasDrawnLead`, `hasDrawnTail`), with each drawn sub-path
recorded as an event.  `leadGtTail` is the value of `leadProgress > tailProgress`
(constant across iterations).  Fuel counts the remaining loop iterations. -/
def antiquumWalkAux (tailS leadS : ℕ) (leadGtTail : Bool) :
    ℕ → ℕ → Bool → Bool → List DrawEv → WalkResult
  | 0, _, _, _, acc => ⟨acc.reverse, .boundReached⟩
  | fuel + 1, curr, hasLead, hasTail, acc =>
    if tailS = curr ∧ leadS = curr ∧ leadGtTail = true then
      ⟨(DrawEv.containedEv :: acc).reverse, .containedBreak⟩
    else if tailS = curr ∧ hasLead = true then
      ⟨acc.reverse, .stopCondition⟩
    else
      let branch : DrawEv × Bool × Bool :=
        if tailS = curr ∧ hasTail = false then (.tailEv, hasLead, true)
        else if leadS = curr then (.leadEv, true, hasTail)
        else ((if hasLead then .midInner else .midOuter), hasLead, hasTail)
      let next := if branch.2.1 then (curr + 2) % 3 else (curr + 1) % 3
      antiquumWalkAux tailS leadS leadGtTail fuel next branch.2.1 branch.2.2
        (branch.1 :: acc)

/-- The section walk of `Antiquum.draw`, started at the tail section with
both flags false and the loop bound 6. -/
def antiquumWalk (tailS leadS : ℕ) (leadGtTail : Bool) : WalkResult :=
  antiquumWalkAux tailS leadS leadGtTail 6 tailS false false []

/-- The loop body of `Lemniscate.drawArc`'s section walk
(`for (let j = 0; j < 1000; j++)`): same branch structure as the Antiquum
walk but without an in-loop contained check, stepping `+1 mod n` before the
lead is drawn and `+(n-1) mod n` afterwards. -/
def lemniscateWalkAux (tailS leadS n : ℕ) :
    ℕ → ℕ → Bool → Bool → List DrawEv → WalkResult
  | 0, _, _, _, acc => ⟨acc.reverse, .boundReached⟩
  | fuel + 1, curr, hasLead, hasTail, acc =>
    if tailS = curr ∧ hasLead = true then
      ⟨acc.reverse, .stopCondition⟩
    else
      let branch : DrawEv × Bool × Bool :=
        if tailS = curr ∧ hasTail = false then (.tailEv, hasLead, true)
        else if leadS = curr then (.leadEv, true, hasTail)
        else ((if hasLead then .midInner else .midOuter), hasLead, hasTail)
      let next := if branch.2.1 then (curr + (n - 1)) % n else (curr + 1) % n
      lemniscateWalkAux tailS leadS n fuel next branch.2.1 branch.2.2
        (branch.1 :: acc)

/-- `Lemniscate.drawArc`'s path construction as a walk outcome: the
contained case (`tailSection == leadSection && leadProgress > tailProgress`)
is handled before the loop; otherwise the 1000-bounded walk runs over
`nSections = checkpoints.length - 2 = 8` sections. -/
def lemniscateWalk (tailS leadS : ℕ) (leadGtTail : Bool) : WalkResult :=
  if tailS = leadS ∧ leadGtTail = true then
    ⟨[.containedEv], .containedBreak⟩
  else
    lemniscateWalkAux tailS leadS 8 1000 tailS false false []

/-- The derived (per-configuration, progress-independent) geometry of the
lemniscate path, `LemniscateGeometry` in the source. -/
structure LemniscateGeometry where
  k : ℝ
  k_orthogonal : ℝ
  tangent_point : ℝ × ℝ
  theta : ℝ
  arc_theta : ℝ
  checkpoints : List ℝ

/-- `k = Math.sqrt(r / (a - r))` with `r = radius²`, `a = xOff²`. -/
noncomputable def lemK (radius xOff : ℝ) : ℝ :=
  Real.sqrt ((radius * radius) / (xOff * xOff - radius * radius))

/-- `b = 4a - 4(k² + 1)(a - r)`, the discriminant of the tangent-point
quadratic. -/
noncomputable def lemB (radius xOff : ℝ) : ℝ :=
  4 * (xOff * xOff) -
    4 * (lemK radius xOff * lemK radius xOff + 1) * (xOff * xOff - radius * radius)

/-- `x_tan = (2·xOff - Math.sqrt(b)) / (2(k² + 1))`. -/
noncomputable def lemXtan (radius xOff : ℝ) : ℝ :=
  (2 * xOff - Real.sqrt (lemB radius xOff)) /
    (2 * (lemK radius xOff * lemK radius xOff + 1))

/-- `y_tan = k · x_tan`. -/
noncomputable def lemYtan (radius xOff : ℝ) : ℝ :=
  lemK radius xOff * lemXtan radius xOff

/-- `dist_tan = Math.sqrt(x_tan² + y_tan²)`. -/
noncomputable def lemDistTan (radius xOff : ℝ) : ℝ :=
  Real.sqrt (lemXtan radius xOff * lemXtan radius xOff +
    lemYtan radius xOff * lemYtan radius xOff)

/-- `theta = π/2 - Math.atan(y_tan / x_tan)`. -/
noncomputable def lemTheta (radius xOff : ℝ) : ℝ :=
  Real.pi / 2 - Real.arctan (lemYtan radius xOff / lemXtan radius xOff)

/-- `dist_arc = (theta / π) · (radius · 2 · π)`. -/
noncomputable def lemDistArc (radius xOff : ℝ) : ℝ :=
  (lemTheta radius xOff / Real.pi) * (radius * 2 * Real.pi)

/-- `alt_dist_tan = dist_tan * 0.5`, one of the four straight-segment path
lengths. -/
noncomputable def lemT (radius xOff : ℝ) : ℝ :=
  lemDistTan radius xOff * 0.5

/-- `alt_dist_arc = dist_arc`, one of the two circular-arc path lengths. -/
noncomputable def lemA (radius xOff : ℝ) : ℝ :=
  lemDistArc radius xOff

/-- `d`, the total path length `T + A + 2T + A + T`. -/
noncomputable def lemD (radius xOff : ℝ) : ℝ :=
  lemT radius xOff + lemA radius xOff + lemT radius xOff * 2 +
    lemA radius xOff + lemT radius xOff

/-- `Lemniscate.deriveGeometry(radius, xOff)`: the slope of the
origin-crossing tangent, the tangent point, the two arc angles, and the ten
cumulative-path-fraction checkpoints (the final entry is the literal `1`;
the one before it is `d / d`). -/
noncomputable def deriveGeometry (radius xOff : ℝ) : LemniscateGeometry :=
  let k := lemK radius xOff
  let T := lemT radius xOff
  let A := lemA radius xOff
  let d := lemD radius xOff
  { k := k
    k_orthogonal := -1 / k
    tangent_point := (lemXtan radius xOff, lemYtan radius xOff)
    theta := lemTheta radius xOff
    arc_theta := 2 * Real.pi - lemTheta radius xOff * 2
    checkpoints :=
      [0,
       T / d,
       (T + A / 2) / d,
       (T + A) / d,
       (T + A + T) / d,
       (T + A + T * 2) / d,
       (T + A + T * 2 + A / 2) / d,
       (T + A + T * 2 + A) / d,
       (T + A + T * 2 + A + T) / d,
       1] }

/-- The `Lemniscate` constructor's geometry derivation for the primary arc:
the constructor body contains no validation and no `throw` statement (the
parent constructor throws only for a missing canvas element), so the
exception effect is always `ok`. -/
noncomputable def lemniscateConstruct (radius xOff : ℝ) : Except String LemniscateGeometry :=
  .ok (deriveGeometry radius xOff)

open Classical in
/-- The loop condition of `Lemniscate.getSection`:
`prog > checkpoints[i] && prog <= checkpoints[i+1]`.  An out-of-bounds
JavaScript array read yields `undefined`, whose numeric comparisons are
false, hence the out-of-bounds arms of the match are `false`. -/
noncomputable def sectionHit (checkpoints : List ℝ) (prog : ℝ) (i : ℕ) : Bool :=
  match checkpoints.get? i, checkpoints.get? (i + 1) with
  | some a, some b => decide (a < prog ∧ prog ≤ b)
  | _, _ => false

/-- `Lemniscate.getSection(prog, arc_i)`: scans `i = 0 .. checkpoints.length`
(the source loop bound is `checkpoints.length + 1`) for the first index whose
condition holds and returns `-1` when no index qualifies. -/
noncomputable def getSection (checkpoints : List ℝ) (prog : ℝ) : ℤ :=
  match (List.range (checkpoints.length + 1)).find? (sectionHit checkpoints prog) with
  | some i => (i : ℤ)
  | none => -1

/-- The alpha-byte string exactly as the specification words it:
`floor(clamp(0, baseOpacity - (colorCount-1-index)*opacityDelta, 1) * 255)`,
formatted lowercase, zero-padded.  This definition follows the
specification text (not the source) and exists to be compared against
`ctxSetColour`. -/
def specAlphaString (colourCount : ℕ) (opacity opacityDelta : ℚ) (index : ℤ) : String :=
  padStart2 (toHexString
    (Int.toNat ⌊clamp 0 (opacity - ((colourCount : ℚ) - 1 - (index : ℚ)) * opacityDelta) 1 * 255⌋))

/-- A clock whose progress sits exactly at the cycle boundary, with
`fps = 100` and `cycleDuration_ms = 1000` (one frame = progress `1/100`). -/
def seekBoundaryState : Anim :=
  { defaultAnim 0 with
      fps := 100
      cycleDuration_ms := 1000
      currProgress := 1 }

/-- A clock with `mutationInterval = 0.5` and `cycleDuration_ms = 1000`,
created at instant `0`, used to observe the mutation-threshold comparison. -/
def mutObservationState : Anim :=
  { defaultAnim 0 with
      fps := 100
      cycleDuration_ms := 1000
      mutationInterval := ((1 : ℚ)/2 : ℚ) }

/-- A running clock created at instant `0` with `fps = 100` and
`cycleDuration_ms = 1000`, used to observe one animate tick. -/
def tickObservationState : Anim :=
  { defaultAnim 0 with
      fps := 100
      cycleDuration_ms := 1000 }

/-! Helper lemmas shared by the claim theorems. -/

/-- Field-wise description of one `animate` tick that is neither paused nor
frame-throttled. -/
theorem animate_fields (s : Anim) (now : ℚ) (hp : s.paused = false)
    (hd : ¬ (now - s.lastDraw < 1000 / s.fps)) :
    ((animate s now).currProgress =
       modulo (now - s.pauseDuration - s.start) s.cycleDuration_ms / s.cycleDuration_ms) ∧
    ((animate s now).lastProgress = s.currProgress) ∧
    ((animate s now).mutateCount =
       if ((now - s.lastMutationTimestamp : ℚ) : WithTop ℚ) ≥ s.mutationInterval
       then s.mutateCount + 1 else s.mutateCount) ∧
    ((animate s now).lastMutationTimestamp =
       if ((now - s.lastMutationTimestamp : ℚ) : WithTop ℚ) ≥ s.mutationInterval
       then now else s.lastMutationTimestamp) ∧
    ((animate s now).currIteration =
       if s.currProgress >
           modulo (now - s.pauseDuration - s.start) s.cycleDuration_ms / s.cycleDuration_ms
       then s.currIteration + 1 else s.currIteration) ∧
    ((animate s now).paused =
       if (s.currProgress >
            modulo (now - s.pauseDuration - s.start) s.cycleDuration_ms / s.cycleDuration_ms) ∧
          (((s.currIteration + 1 : ℚ) : WithTop ℚ) ≥ s.nIterations)
       then true else false) ∧
    ((animate s now).nIterations = s.nIterations) := by
  simp only [animate, hp, Bool.false_eq_true, if_false, if_neg hd]
  split_ifs with h1 h2 h3 <;> simp_all [pause] <;>
    exact absurd (And.right (by assumption)) (not_le.mpr (by assumption))

/-- For a positive modulus the library's integer modulo (built from the
truncating `%`) agrees with the euclidean remainder. -/
theorem moduloInt_eq_emod (n m : ℤ) (hm : 0 < m) : moduloInt n m = n % m := by
  have hmn : 0 ≤ n.tmod m + m := by
    rcases le_or_lt 0 n with hn | hn
    · have := Int.tmod_nonneg m hn
      linarith
    · have h1 : n.tmod m = -((-n).tmod m) := by
        rw [Int.tmod_def, Int.tmod_def, Int.neg_tdiv]
        ring
      have h2 : (-n).tmod m < m := Int.tmod_lt_of_pos _ hm
      rw [h1]
      linarith
  show (n.tmod m + m).tmod m = n % m
  rw [Int.tmod_eq_emod hmn (le_of_lt hm)]
  have h3 : (n.tmod m + m) % m = n.tmod m % m := by
    have := Int.add_mul_emod_self_left (n.tmod m) m 1
    simpa using this
  rw [h3, Int.tmod_def, sub_eq_add_neg, ← mul_neg, Int.add_mul_emod_self_left]

/-- The squared distance factor of the lemniscate is positive on feasible
configurations. -/
theorem lemSub_pos {radius xOff : ℝ} (h0 : 0 < radius) (hxr : radius < xOff) :
    0 < xOff * xOff - radius * radius := by nlinarith

/-- The tangent slope is positive on feasible configurations. -/
theorem lemK_pos {radius xOff : ℝ} (h0 : 0 < radius) (hxr : radius < xOff) :
    0 < lemK radius xOff :=
  Real.sqrt_pos.mpr (div_pos (by nlinarith) (lemSub_pos h0 hxr))

/-- The square of the tangent slope. -/
theorem lemK_mul_self {radius xOff : ℝ} (h0 : 0 < radius) (hxr : radius < xOff) :
    lemK radius xOff * lemK radius xOff =
      radius * radius / (xOff * xOff - radius * radius) :=
  Real.mul_self_sqrt (le_of_lt (div_pos (by nlinarith) (lemSub_pos h0 hxr)))

/-- The tangent-point discriminant vanishes identically on feasible
configurations. -/
theorem lemB_eq_zero {radius xOff : ℝ} (h0 : 0 < radius) (hxr : radius < xOff) :
    lemB radius xOff = 0 := by
  have hsub := lemSub_pos h0 hxr
  unfold lemB
  rw [lemK_mul_self h0 hxr]
  field_simp

/-- Closed form of the tangent-point abscissa. -/
theorem lemXtan_eq {radius xOff : ℝ} (h0 : 0 < radius) (hxr : radius < xOff) :
    lemXtan radius xOff = xOff / (lemK radius xOff * lemK radius xOff + 1) := by
  unfold lemXtan
  rw [lemB_eq_zero h0 hxr, Real.sqrt_zero]
  have hpos : lemK radius xOff * lemK radius xOff + 1 ≠ 0 := by nlinarith [lemK_pos h0 hxr]
  field_simp
  ring

/-- The tangent-point abscissa is positive. -/
theorem lemXtan_pos {radius xOff : ℝ} (h0 : 0 < radius) (hxr : radius < xOff) :
    0 < lemXtan radius xOff := by
  rw [lemXtan_eq h0 hxr]
  have hk := lemK_pos h0 hxr
  have hx : 0 < xOff := lt_trans h0 hxr
  positivity

/-- The tangent-point ordinate is positive. -/
theorem lemYtan_pos {radius xOff : ℝ} (h0 : 0 < radius) (hxr : radius < xOff) :
    0 < lemYtan radius xOff :=
  mul_pos (lemK_pos h0 hxr) (lemXtan_pos h0 hxr)

/-- The tangent-segment length is positive. -/
theorem lemDistTan_pos {radius xOff : ℝ} (h0 : 0 < radius) (hxr : radius < xOff) :
    0 < lemDistTan radius xOff := by
  apply Real.sqrt_pos.mpr
  nlinarith [lemXtan_pos h0 hxr, lemYtan_pos h0 hxr]

/-- The tangent angle is positive (the arctangent is below π/2). -/
theorem lemTheta_pos {radius xOff : ℝ} (h0 : 0 < radius) (hxr : radius < xOff) :
    0 < lemTheta radius xOff := by
  unfold lemTheta
  have := Real.arctan_lt_pi_div_two (lemYtan radius xOff / lemXtan radius xOff)
  linarith

/-- The arc-segment length is positive. -/
theorem lemDistArc_pos {radius xOff : ℝ} (h0 : 0 < radius) (hxr : radius < xOff) :
    0 < lemDistArc radius xOff := by
  unfold lemDistArc
  have hθ := lemTheta_pos h0 hxr
  have hπ := Real.pi_pos
  positivity

/-- The normalized tangent length is positive. -/
theorem lemT_pos {radius xOff : ℝ} (h0 : 0 < radius) (hxr : radius < xOff) :
    0 < lemT radius xOff := by
  unfold lemT
  have := lemDistTan_pos h0 hxr
  norm_num
  linarith

/-- The normalized arc length is positive. -/
theorem lemA_pos {radius xOff : ℝ} (h0 : 0 < radius) (hxr : radius < xOff) :
    0 < lemA radius xOff :=
  lemDistArc_pos h0 hxr

/-- The total path length is positive. -/
theorem lemD_pos {radius xOff : ℝ} (h0 : 0 < radius) (hxr : radius < xOff) :
    0 < lemD radius xOff := by
  unfold lemD
  have := lemT_pos h0 hxr
  have := lemA_pos h0 hxr
  linarith

/-- The ninth checkpoint is `d / d = 1`. -/
theorem lemCheckpoint8_eq_one {radius xOff : ℝ} (h0 : 0 < radius) (hxr : radius < xOff) :
    (lemT radius xOff + lemA radius xOff + lemT radius xOff * 2 + lemA radius xOff +
      lemT radius xOff) / lemD radius xOff = 1 :=
  show lemD radius xOff / lemD radius xOff = 1 from div_self (lemD_pos h0 hxr).ne'

/-- The checkpoint list with the `d / d` entry rewritten to the literal `1`. -/
theorem deriveGeometry_checkpoints_explicit {radius xOff : ℝ}
    (h0 : 0 < radius) (hxr : radius < xOff) :
    (deriveGeometry radius xOff).checkpoints =
      [0, lemT radius xOff / lemD radius xOff,
       (lemT radius xOff + lemA radius xOff / 2) / lemD radius xOff,
       (lemT radius xOff + lemA radius xOff) / lemD radius xOff,
       (lemT radius xOff + lemA radius xOff + lemT radius xOff) / lemD radius xOff,
       (lemT radius xOff + lemA radius xOff + lemT radius xOff * 2) / lemD radius xOff,
       (lemT radius xOff + lemA radius xOff + lemT radius xOff * 2 + lemA radius xOff / 2) /
         lemD radius xOff,
       (lemT radius xOff + lemA radius xOff + lemT radius xOff * 2 + lemA radius xOff) /
         lemD radius xOff,
       1, 1] := by
  simp only [deriveGeometry]
  rw [lemCheckpoint8_eq_one h0 hxr]

/-- If the section scan finds an index it is at most 7, and it always finds
one when a witness index exists. -/
theorem getSection_range_aux (cps : List ℝ) (prog : ℝ)
    (hex : ∃ j, j ∈ List.range (cps.length + 1) ∧ sectionHit cps prog j = true)
    (hbound : ∀ j, sectionHit cps prog j = true → j ≤ 7) :
    0 ≤ getSection cps prog ∧ getSection cps prog ≤ 7 := by
  unfold getSection
  cases hfind : (List.range (cps.length + 1)).find? (sectionHit cps prog) with
  | none =>
    exfalso
    obtain ⟨j, hjmem, hpj⟩ := hex
    rw [List.find?_eq_none] at hfind
    exact absurd hpj (hfind j hjmem)
  | some i =>
    have hpi := List.find?_some hfind
    have hle := hbound i hpi
    refine ⟨?_, ?_⟩
    · show (0 : ℤ) ≤ (i : ℤ)
      exact_mod_cast Nat.zero_le i
    · show ((i : ℕ) : ℤ) ≤ 7
      exact_mod_cast hle

/-- On a ten-entry checkpoint list of the lemniscate's shape, the section of
any progress in `(0, 1]` is an index between 0 and 7. -/
theorem getSection_range_core (c1 c2 c3 c4 c5 c6 c7 prog : ℝ)
    (hp0 : 0 < prog) (hp1 : prog ≤ 1) :
    0 ≤ getSection [0, c1, c2, c3, c4, c5, c6, c7, 1, 1] prog ∧
    getSection [0, c1, c2, c3, c4, c5, c6, c7, 1, 1] prog ≤ 7 := by
  apply getSection_range_aux
  · by_cases h1 : prog ≤ c1
    · exact ⟨0, List.mem_range.mpr (by norm_num), by simp [sectionHit]; exact ⟨hp0, h1⟩⟩
    · by_cases h2 : prog ≤ c2
      · exact ⟨1, List.mem_range.mpr (by norm_num), by simp [sectionHit]; exact ⟨not_le.mp h1, h2⟩⟩
      · by_cases h3 : prog ≤ c3
        · exact ⟨2, List.mem_range.mpr (by norm_num), by simp [sectionHit]; exact ⟨not_le.mp h2, h3⟩⟩
        · by_cases h4 : prog ≤ c4
          · exact ⟨3, List.mem_range.mpr (by norm_num), by simp [sectionHit]; exact ⟨not_le.mp h3, h4⟩⟩
          · by_cases h5 : prog ≤ c5
            · exact ⟨4, List.mem_range.mpr (by norm_num), by simp [sectionHit]; exact ⟨not_le.mp h4, h5⟩⟩
            · by_cases h6 : prog ≤ c6
              · exact ⟨5, List.mem_range.mpr (by norm_num), by simp [sectionHit]; exact ⟨not_le.mp h5, h6⟩⟩
              · by_cases h7 : prog ≤ c7
                · exact ⟨6, List.mem_range.mpr (by norm_num), by simp [sectionHit]; exact ⟨not_le.mp h6, h7⟩⟩
                · exact ⟨7, List.mem_range.mpr (by norm_num), by simp [sectionHit]; exact ⟨not_le.mp h7, hp1⟩⟩
  · intro j hj
    by_contra hgt
    have hcase : j = 8 ∨ j = 9 ∨ 10 ≤ j := by omega
    rcases hcase with rfl | rfl | hge
    · simp [sectionHit] at hj
      linarith [hj.1, hj.2]
    · simp [sectionHit] at hj
    · rw [sectionHit, List.get?_eq_none.mpr (by simp; omega)] at hj
      simp at hj

/-- When every checkpoint is non-negative the scan at progress `0` finds no
index: the first condition `checkpoints[i] < 0` is never satisfiable. -/
theorem getSection_neg_one_of_nonneg (cps : List ℝ) (hall : ∀ c ∈ cps, 0 ≤ c) :
    getSection cps 0 = -1 := by
  unfold getSection
  have hnone : (List.range (cps.length + 1)).find? (sectionHit cps 0) = none := by
    rw [List.find?_eq_none]
    intro i _
    unfold sectionHit
    cases hgi : cps.get? i with
    | none => cases cps.get? (i + 1) <;> simp
    | some a =>
      cases hgi1 : cps.get? (i + 1) with
      | none => simp
      | some b =>
        have ha : 0 ≤ a := hall a (List.get?_mem hgi)
        simp only [decide_eq_true_eq]
        rintro ⟨h1, -⟩
        exact absurd h1 (not_lt.mpr ha)
  rw [hnone]

/-! Claim theorems. -/

/-- C1 (amended): in `seek`, the snap-to-zero special case applies after the
clamped delta has been computed and overrides it: whenever the pre-seek
`currProgress` is exactly `1` (so the freshly stored `lastProgress` is `1`),
the resulting `currProgress` is `0` for every frame delta — in particular
`seek(-20)` with `fps = 100`, `cycleDuration_ms = 1000` from progress `1`
yields `0`, not `0.9`. -/
theorem seek_snapZero_after_delta (s : Anim) (frames : ℚ)
    (h : s.currProgress = 1) : (seek s frames).currProgress = 0 := by
  simp [seek, h]

/-- Witness: the snap rule evaluated on the concrete boundary state. -/
theorem seek_snapZero_after_delta_witness :
    seekBoundaryState.currProgress = 1 ∧
    (seek seekBoundaryState (-20)).currProgress = 0 :=
  ⟨rfl, seek_snapZero_after_delta seekBoundaryState (-20) rfl⟩

/-- C1 counterexample: with `fps = 100` and `cycleDuration_ms = 1000`, a
clock whose `currProgress` is exactly `1` yields `currProgress = 0` from
`seek(-20)`, not the `0.9` (frame 90) the claim states. -/
theorem seek_from_one_counterexample :
    (seek seekBoundaryState (-20)).currProgress = 0 ∧ ((0 : ℚ) ≠ 9 / 10) := by
  constructor
  · simp [seek, seekBoundaryState]
  · norm_num

/-- C2 (amended): in the non-contained case the section walk emits the tail
sub-path exactly once and the lead sub-path exactly once for every tail/lead
section pair; the stop condition (back at the tail with the lead drawn) is
reached within the loop bound whenever the two sections are distinct (both
variants) and, for the 8-section lemniscate walk, also when they coincide;
but the 3-section circular walk with coinciding sections terminates by
exhausting its 6-iteration bound without ever evaluating the stop condition. -/
theorem sectionWalk_tail_lead_once :
    (∀ t l : Fin 3, ∀ g : Bool, t ≠ l →
      ((antiquumWalk t.val l.val g).events.count .tailEv = 1 ∧
       (antiquumWalk t.val l.val g).events.count .leadEv = 1 ∧
       (antiquumWalk t.val l.val g).exit = .stopCondition)) ∧
    (∀ t : Fin 3,
      ((antiquumWalk t.val t.val false).events.count .tailEv = 1 ∧
       (antiquumWalk t.val t.val false).events.count .leadEv = 1 ∧
       (antiquumWalk t.val t.val false).exit = .boundReached)) ∧
    (∀ t l : Fin 8, ∀ g : Bool, ¬(t = l ∧ g = true) →
      ((lemniscateWalk t.val l.val g).events.count .tailEv = 1 ∧
       (lemniscateWalk t.val l.val g).events.count .leadEv = 1 ∧
       (lemniscateWalk t.val l.val g).exit = .stopCondition)) := by
  refine ⟨?_, ?_, ?_⟩ <;> decide

/-- Witness: the circular walk from tail section 0 to lead section 1. -/
theorem sectionWalk_tail_lead_once_witness :
    ((0 : Fin 3) ≠ 1) ∧
    ((antiquumWalk (0 : Fin 3).val (1 : Fin 3).val false).events.count .tailEv = 1 ∧
     (antiquumWalk (0 : Fin 3).val (1 : Fin 3).val false).events.count .leadEv = 1 ∧
     (antiquumWalk (0 : Fin 3).val (1 : Fin 3).val false).exit = .stopCondition) :=
  ⟨by decide, sectionWalk_tail_lead_once.1 0 1 false (by decide)⟩

/-- C2 counterexample: with tail and lead both classified in section 0 and a
wrapped lead (`leadProgress ≤ tailProgress`), the circular walk runs all six
iterations and exits by the loop bound — the stop condition is never
reached — even though tail and lead are each emitted exactly once. -/
theorem sectionWalk_equal_sections_bound_exit :
    (antiquumWalk 0 0 false).events.count .tailEv = 1 ∧
    (antiquumWalk 0 0 false).events.count .leadEv = 1 ∧
    (antiquumWalk 0 0 false).exit ≠ .stopCondition ∧
    (antiquumWalk 0 0 false).events =
      [.tailEv, .midOuter, .midOuter, .leadEv, .midInner, .midInner] := by
  decide

/-- C3 (amended): the Lemniscate constructor performs no validation and
never raises an error, for any `radius` and `xOff` (including the infeasible
`xOff ≤ radius`, where the derivation silently yields non-real values); for
every `radius > 0` and `xOff > radius` the derived geometry's ten checkpoint
entries start at `0`, reach exactly `1` at index 8 (and stay `1` at index
9), and the first nine are strictly increasing. -/
theorem lemniscate_feasibility (radius xOff : ℝ) (h0 : 0 < radius) (hxr : radius < xOff) :
    (∀ r x : ℝ, (lemniscateConstruct r x).isOk = true) ∧
    (deriveGeometry radius xOff).checkpoints.length = 10 ∧
    (deriveGeometry radius xOff).checkpoints.head? = some 0 ∧
    (deriveGeometry radius xOff).checkpoints.get? 8 = some 1 ∧
    (deriveGeometry radius xOff).checkpoints.getLast? = some 1 ∧
    List.Chain' (· < ·) ((deriveGeometry radius xOff).checkpoints.take 9) := by
  have hT := lemT_pos h0 hxr
  have hA := lemA_pos h0 hxr
  have hd := lemD_pos h0 hxr
  have h8 := lemCheckpoint8_eq_one h0 hxr
  refine ⟨fun r x => rfl, by simp [deriveGeometry], by simp [deriveGeometry], ?_,
    by simp [deriveGeometry], ?_⟩
  · simp only [deriveGeometry, List.get?]
    rw [h8]
  · simp only [deriveGeometry, List.take, List.chain'_cons, List.chain'_singleton]
    rw [h8]
    refine ⟨?_, ?_, ?_, ?_, ?_, ?_, ?_, ?_, trivial⟩
    · exact div_pos hT hd
    · exact (div_lt_div_iff_of_pos_right hd).mpr (by linarith)
    · exact (div_lt_div_iff_of_pos_right hd).mpr (by linarith)
    · exact (div_lt_div_iff_of_pos_right hd).mpr (by linarith)
    · exact (div_lt_div_iff_of_pos_right hd).mpr (by linarith)
    · exact (div_lt_div_iff_of_pos_right hd).mpr (by linarith)
    · exact (div_lt_div_iff_of_pos_right hd).mpr (by linarith)
    · rw [show (1 : ℝ) = lemD radius xOff / lemD radius xOff from (div_self hd.ne').symm]
      refine (div_lt_div_iff_of_pos_right hd).mpr ?_
      show lemT radius xOff + lemA radius xOff + lemT radius xOff * 2 + lemA radius xOff <
        lemT radius xOff + lemA radius xOff + lemT radius xOff * 2 + lemA radius xOff +
          lemT radius xOff
      linarith

/-- Witness: the feasibility theorem at `radius = 1`, `xOff = 2`. -/
theorem lemniscate_feasibility_witness :
    ((0 : ℝ) < 1) ∧ ((1 : ℝ) < 2) ∧
    ((∀ r x : ℝ, (lemniscateConstruct r x).isOk = true) ∧
     (deriveGeometry 1 2).checkpoints.length = 10 ∧
     (deriveGeometry 1 2).checkpoints.head? = some 0 ∧
     (deriveGeometry 1 2).checkpoints.get? 8 = some 1 ∧
     (deriveGeometry 1 2).checkpoints.getLast? = some 1 ∧
     List.Chain' (· < ·) ((deriveGeometry 1 2).checkpoints.take 9)) :=
  ⟨by norm_num, by norm_num, lemniscate_feasibility 1 2 (by norm_num) (by norm_num)⟩

/-- C3 counterexample: constructing with `radius = 2`, `xOff = 1` (so
`xOff ≤ radius`) succeeds — no configuration error is raised. -/
theorem lemniscate_construct_accepts_infeasible :
    ((1 : ℝ) ≤ 2) ∧ (lemniscateConstruct 2 1).isOk = true :=
  ⟨by norm_num, rfl⟩

/-- C4 (code bug): `animate` compares the elapsed milliseconds since the
last mutation against `mutationInterval` directly, not against
`mutationInterval * cycleDuration_ms` as the field's own documentation
states: with `mutationInterval = 0.5` and `cycleDuration_ms = 1000`, a tick
only 100 ms after the last mutation already invokes `mutate()` (and resets
the mutation timestamp) although `100 < 0.5 * 1000`. -/
theorem animate_mutation_threshold_is_raw_ms :
    (animate mutObservationState 100).mutateCount = mutObservationState.mutateCount + 1 ∧
    (animate mutObservationState 100).lastMutationTimestamp = 100 ∧
    (100 : ℚ) - mutObservationState.lastMutationTimestamp < (1 / 2) * 1000 := by
  obtain ⟨-, -, hmc, hts, -, -, -⟩ :=
    animate_fields mutObservationState 100 rfl (by norm_num [mutObservationState, defaultAnim])
  have hcond : (((100 : ℚ) - mutObservationState.lastMutationTimestamp : ℚ) : WithTop ℚ) ≥
      mutObservationState.mutationInterval := by
    have e1 : mutObservationState.lastMutationTimestamp = 0 := rfl
    have e2 : mutObservationState.mutationInterval = (((1 : ℚ)/2 : ℚ) : WithTop ℚ) := rfl
    rw [e1, e2, ge_iff_le, WithTop.coe_le_coe]
    norm_num
  rw [if_pos hcond] at hmc hts
  have e1 : mutObservationState.lastMutationTimestamp = 0 := rfl
  exact ⟨hmc, hts, by rw [e1]; norm_num⟩

/-- C5 (amended): under the documented parameter ranges (`opacity ≤ 1`,
`opacityDelta ≥ 0`, non-empty colour list) `ctxSetColour` produces the base
colour at the wrapped index with the alpha byte of the specification's
clamp formula appended (the source's `max 0` coincides with the clamp
because the value never exceeds 1); on `["#ff0000"]` with
`opacityDelta = 0`, opacity `1` yields `"#ff0000ff"` and opacity `0.5`
yields `"#ff00007f"` (`floor(0.5 * 255) = 127 = 0x7f`), not `"#ff000080"`. -/
theorem ctxSetColour_spec_formula (colours : List String)
    (opacity opacityDelta : ℚ) (offset : ℤ)
    (hne : colours ≠ []) (hop : opacity ≤ 1) (hδ : 0 ≤ opacityDelta) :
    (ctxSetColour colours opacity opacityDelta offset =
      colours.getD (moduloInt offset (colours.length : ℤ)).toNat "" ++
        specAlphaString colours.length opacity opacityDelta
          (moduloInt offset (colours.length : ℤ))) ∧
    ctxSetColour ["#ff0000"] 1 0 0 = "#ff0000ff" ∧
    ctxSetColour ["#ff0000"] (1/2) 0 0 = "#ff00007f" := by
  refine ⟨?_, ?_, ?_⟩
  · have hlen : (0 : ℤ) < (colours.length : ℤ) := by
      have : colours.length ≠ 0 := fun h => hne (List.eq_nil_of_length_eq_zero h)
      omega
    have hmod := moduloInt_eq_emod offset (colours.length : ℤ) hlen
    have hub : moduloInt offset (colours.length : ℤ) ≤ (colours.length : ℤ) - 1 := by
      rw [hmod]
      have := Int.emod_lt_of_pos offset hlen
      omega
    have hterm : 0 ≤ ((colours.length : ℚ) - 1 -
        ((moduloInt offset (colours.length : ℤ) : ℤ) : ℚ)) * opacityDelta := by
      apply mul_nonneg _ hδ
      have : ((moduloInt offset (colours.length : ℤ) : ℤ) : ℚ) ≤ (colours.length : ℚ) - 1 := by
        exact_mod_cast hub
      linarith
    have hexpr : opacity - ((colours.length : ℚ) - 1 -
        ((moduloInt offset (colours.length : ℤ) : ℤ) : ℚ)) * opacityDelta ≤ 1 := by
      linarith
    have hclamp : clamp 0 (opacity - ((colours.length : ℚ) - 1 -
        ((moduloInt offset (colours.length : ℤ) : ℤ) : ℚ)) * opacityDelta) 1 =
        max 0 (opacity - ((colours.length : ℚ) - 1 -
          ((moduloInt offset (colours.length : ℤ) : ℤ) : ℚ)) * opacityDelta) := by
      rw [clamp, min_eq_right hexpr]
    simp only [ctxSetColour, specAlphaString, hclamp]
  · have hfloor : (⌊(max 0 ((1 : ℚ) - (((["#ff0000"] : List String).length : ℚ) - 1 -
        ((moduloInt 0 (["#ff0000"] : List String).length : ℤ) : ℚ)) * 0)) * 255⌋ : ℤ) = 255 := by
      norm_num
    simp only [ctxSetColour, hfloor]
    decide
  · have hfloor : (⌊(max 0 ((1 : ℚ)/2 - (((["#ff0000"] : List String).length : ℚ) - 1 -
        ((moduloInt 0 (["#ff0000"] : List String).length : ℤ) : ℚ)) * 0)) * 255⌋ : ℤ) = 127 := by
      norm_num
    simp only [ctxSetColour, hfloor]
    decide

/-- Witness: the colour composition at `colours = ["#ff0000"]`,
`opacity = 1/2`, `opacityDelta = 0`, index `0`. -/
theorem ctxSetColour_spec_formula_witness :
    ((["#ff0000"] : List String) ≠ []) ∧ ((1 : ℚ)/2 ≤ 1) ∧ ((0 : ℚ) ≤ 0) ∧
    ((ctxSetColour ["#ff0000"] (1/2) 0 0 =
        (["#ff0000"] : List String).getD
            (moduloInt 0 ((["#ff0000"] : List String).length : ℤ)).toNat "" ++
          specAlphaString (["#ff0000"] : List String).length (1/2) 0
            (moduloInt 0 ((["#ff0000"] : List String).length : ℤ))) ∧
      ctxSetColour ["#ff0000"] 1 0 0 = "#ff0000ff" ∧
      ctxSetColour ["#ff0000"] (1/2) 0 0 = "#ff00007f") :=
  ⟨by decide, by norm_num, le_refl 0,
    ctxSetColour_spec_formula ["#ff0000"] (1/2) 0 0 (by decide) (by norm_num) (le_refl 0)⟩

/-- C5 counterexample: at opacity `0.5` the code produces the alpha byte
`0x7f` (floor of `127.5`), so the produced string is `"#ff00007f"`, not the
`"#ff000080"` the claim states. -/
theorem ctxSetColour_half_opacity_counterexample :
    ctxSetColour ["#ff0000"] (1/2) 0 0 = "#ff00007f" ∧
    ctxSetColour ["#ff0000"] (1/2) 0 0 ≠ "#ff000080" := by
  have hfloor : (⌊(max 0 ((1 : ℚ)/2 - (((["#ff0000"] : List String).length : ℚ) - 1 -
      ((moduloInt 0 (["#ff0000"] : List String).length : ℤ) : ℚ)) * 0)) * 255⌋ : ℤ) = 127 := by
    norm_num
  constructor
  · simp only [ctxSetColour, hfloor]
    decide
  · simp only [ctxSetColour, hfloor]
    decide

/-- C6 (confirmed): in an animate tick that advances the clock (not paused,
not frame-throttled), `currIteration` grows by exactly 1 exactly when the
newly computed `currProgress` is strictly below the previous one, and is
unchanged otherwise; when the incremented iteration reaches or exceeds
`nIterations` the clock pauses; and `seek` changes neither `currIteration`
nor the mutate-invocation count. -/
theorem animate_wrap_iteration_and_seek (s : Anim) (now : ℚ)
    (hp : s.paused = false) (hd : ¬ (now - s.lastDraw < 1000 / s.fps)) :
    ((animate s now).currIteration =
        if (animate s now).currProgress < s.currProgress then s.currIteration + 1
        else s.currIteration) ∧
    (((animate s now).currProgress < s.currProgress ∧
        ((s.currIteration + 1 : ℚ) : WithTop ℚ) ≥ s.nIterations) →
      (animate s now).paused = true) ∧
    (∀ frames : ℚ, (seek s frames).currIteration = s.currIteration ∧
        (seek s frames).mutateCount = s.mutateCount) := by
  obtain ⟨hcp, -, -, -, hci, hpz, -⟩ := animate_fields s now hp hd
  refine ⟨?_, ?_, fun frames => ⟨rfl, rfl⟩⟩
  · rw [hci, hcp]
  · intro h
    rw [hcp] at h
    rw [hpz, if_pos ⟨h.1, h.2⟩]

/-- Witness: one tick of the concrete running clock at instant 2000. -/
theorem animate_wrap_iteration_and_seek_witness :
    (tickObservationState.paused = false) ∧
    (¬ ((2000 : ℚ) - tickObservationState.lastDraw < 1000 / tickObservationState.fps)) ∧
    (((animate tickObservationState 2000).currIteration =
        if (animate tickObservationState 2000).currProgress <
            tickObservationState.currProgress
        then tickObservationState.currIteration + 1
        else tickObservationState.currIteration) ∧
     (((animate tickObservationState 2000).currProgress <
          tickObservationState.currProgress ∧
        ((tickObservationState.currIteration + 1 : ℚ) : WithTop ℚ) ≥
          tickObservationState.nIterations) →
       (animate tickObservationState 2000).paused = true) ∧
     (∀ frames : ℚ,
        (seek tickObservationState frames).currIteration =
          tickObservationState.currIteration ∧
        (seek tickObservationState frames).mutateCount =
          tickObservationState.mutateCount)) :=
  ⟨rfl, by norm_num [tickObservationState, defaultAnim],
    animate_wrap_iteration_and_seek tickObservationState 2000 rfl
      (by norm_num [tickObservationState, defaultAnim])⟩

/-- C7 (amended): the lemniscate's section classification is an index in
`0..7` for every progress in the half-open interval `(0, 1]` (on a feasible
configuration), but progress exactly `0` is classified as the sentinel `-1`
because the scan requires `prog > checkpoints[i]` strictly; the `-1` case
is handled by a console log, not a raised error, and drawing continues. -/
theorem getSection_valid_on_positive_progress (radius xOff prog : ℝ)
    (h0 : 0 < radius) (hxr : radius < xOff) (hp0 : 0 < prog) (hp1 : prog ≤ 1) :
    0 ≤ getSection (deriveGeometry radius xOff).checkpoints prog ∧
    getSection (deriveGeometry radius xOff).checkpoints prog ≤ 7 := by
  rw [deriveGeometry_checkpoints_explicit h0 hxr]
  exact getSection_range_core _ _ _ _ _ _ _ prog hp0 hp1

/-- Witness: the classification at `radius = 1`, `xOff = 2`, progress `1/2`. -/
theorem getSection_valid_on_positive_progress_witness :
    ((0 : ℝ) < 1) ∧ ((1 : ℝ) < 2) ∧ ((0 : ℝ) < 1/2) ∧ ((1 : ℝ)/2 ≤ 1) ∧
    (0 ≤ getSection (deriveGeometry 1 2).checkpoints (1/2) ∧
     getSection (deriveGeometry 1 2).checkpoints (1/2) ≤ 7) :=
  ⟨by norm_num, by norm_num, by norm_num, by norm_num,
    getSection_valid_on_positive_progress 1 2 (1/2) (by norm_num) (by norm_num)
      (by norm_num) (by norm_num)⟩

/-- C7 counterexample: at progress exactly `0` (the first frame of a clock
created with the default `currProgress = 0`), `getSection` returns the
failure sentinel `-1` on the feasible geometry `radius = 1`, `xOff = 2`. -/
theorem getSection_zero_returns_neg_one :
    getSection (deriveGeometry 1 2).checkpoints 0 = -1 := by
  have h0 : (0 : ℝ) < 1 := by norm_num
  have hxr : (1 : ℝ) < 2 := by norm_num
  have hT := (lemT_pos h0 hxr).le
  have hA := (lemA_pos h0 hxr).le
  have hd := (lemD_pos h0 hxr).le
  apply getSection_neg_one_of_nonneg
  rw [deriveGeometry_checkpoints_explicit h0 hxr]
  intro c hc
  simp only [List.mem_cons, List.not_mem_nil, or_false] at hc
  rcases hc with rfl | rfl | rfl | rfl | rfl | rfl | rfl | rfl | rfl | rfl
  all_goals (first | exact div_nonneg (by linarith) hd | norm_num)

/-- C8 (confirmed): every built-in easing function (linear, quadratic,
cubic, sinusoidal) returns `0` at progress `0` and `1` at progress `1` when
`rest = 0` and no offset is supplied, and maps every progress in `[0, 1]`
with any `rest` in `[0, 1)` into `[0, 1]`. -/
theorem easing_boundary_and_range (p rest : ℝ) (hp0 : 0 ≤ p) (hp1 : p ≤ 1)
    (hr0 : 0 ≤ rest) (hr1 : rest < 1) :
    (getProgressLinear 0 0 0 = 0 ∧ getProgressLinear 1 0 0 = 1) ∧
    (getProgressExponential 2 0 0 0 = 0 ∧ getProgressExponential 2 1 0 0 = 1) ∧
    (getProgressExponential 3 0 0 0 = 0 ∧ getProgressExponential 3 1 0 0 = 1) ∧
    (getProgressSinusoidal 0 0 0 = 0 ∧ getProgressSinusoidal 1 0 0 = 1) ∧
    (0 ≤ getProgressLinear p rest 0 ∧ getProgressLinear p rest 0 ≤ 1) ∧
    (0 ≤ getProgressExponential 2 p rest 0 ∧ getProgressExponential 2 p rest 0 ≤ 1) ∧
    (0 ≤ getProgressExponential 3 p rest 0 ∧ getProgressExponential 3 p rest 0 ≤ 1) ∧
    (0 ≤ getProgressSinusoidal p rest 0 ∧ getProgressSinusoidal p rest 0 ≤ 1) := by
  have hrest : (0 : ℝ) < 1 - rest := by linarith
  have hx0 : 0 ≤ min 1 (offsetProgress p 0 / (1 - rest)) := by
    have : (0 : ℝ) ≤ offsetProgress p 0 / (1 - rest) := by
      apply div_nonneg _ (le_of_lt hrest)
      simpa [offsetProgress] using hp0
    exact le_min (by norm_num) this
  have hx1 : min 1 (offsetProgress p 0 / (1 - rest)) ≤ 1 := min_le_left _ _
  have hsin0 : getProgressSinusoidal 0 0 0 = 0 := by
    have harg : ((min 1 ((offsetProgress 0 0) / ((1 : ℝ) - 0)) - 0.5) * Real.pi) =
        -(Real.pi / 2) := by
      simp [offsetProgress]
      norm_num
      ring
    simp only [getProgressSinusoidal, harg, Real.sin_neg, Real.sin_pi_div_two]
    norm_num
  have hsin1 : getProgressSinusoidal 1 0 0 = 1 := by
    have harg : ((min 1 ((offsetProgress 1 0) / ((1 : ℝ) - 0)) - 0.5) * Real.pi) =
        Real.pi / 2 := by
      simp [offsetProgress]
      norm_num
      ring
    simp only [getProgressSinusoidal, harg, Real.sin_pi_div_two]
    norm_num
  refine ⟨⟨?_, ?_⟩, ⟨?_, ?_⟩, ⟨?_, ?_⟩, ⟨hsin0, hsin1⟩, ⟨hx0, hx1⟩, ?_, ?_, ?_⟩
  · norm_num [getProgressLinear, offsetProgress]
  · norm_num [getProgressLinear, offsetProgress]
  · norm_num [getProgressExponential, offsetProgress]
  · norm_num [getProgressExponential, offsetProgress]
  · norm_num [getProgressExponential, offsetProgress]
  · norm_num [getProgressExponential, offsetProgress]
  · exact ⟨pow_nonneg hx0 2, pow_le_one hx0 hx1⟩
  · exact ⟨pow_nonneg hx0 3, pow_le_one hx0 hx1⟩
  · constructor
    · have hs := Real.neg_one_le_sin
        ((min 1 (offsetProgress p 0 / (1 - rest)) - 0.5) * Real.pi)
      simp only [getProgressSinusoidal]
      nlinarith [hs]
    · have hs := Real.sin_le_one
        ((min 1 (offsetProgress p 0 / (1 - rest)) - 0.5) * Real.pi)
      simp only [getProgressSinusoidal]
      nlinarith [hs]

/-- Witness: the easing bounds at progress `1/2` with `rest = 0`. -/
theorem easing_boundary_and_range_witness :
    ((0 : ℝ) ≤ 1/2) ∧ ((1 : ℝ)/2 ≤ 1) ∧ ((0 : ℝ) ≤ 0) ∧ ((0 : ℝ) < 1) ∧
    ((getProgressLinear 0 0 0 = 0 ∧ getProgressLinear 1 0 0 = 1) ∧
     (getProgressExponential 2 0 0 0 = 0 ∧ getProgressExponential 2 1 0 0 = 1) ∧
     (getProgressExponential 3 0 0 0 = 0 ∧ getProgressExponential 3 1 0 0 = 1) ∧
     (getProgressSinusoidal 0 0 0 = 0 ∧ getProgressSinusoidal 1 0 0 = 1) ∧
     (0 ≤ getProgressLinear (1/2) 0 0 ∧ getProgressLinear (1/2) 0 0 ≤ 1) ∧
     (0 ≤ getProgressExponential 2 (1/2) 0 0 ∧ getProgressExponential 2 (1/2) 0 0 ≤ 1) ∧
     (0 ≤ getProgressExponential 3 (1/2) 0 0 ∧ getProgressExponential 3 (1/2) 0 0 ≤ 1) ∧
     (0 ≤ getProgressSinusoidal (1/2) 0 0 ∧ getProgressSinusoidal (1/2) 0 0 ≤ 1)) :=
  ⟨by norm_num, by norm_num, le_refl 0, by norm_num,
    easing_boundary_and_range (1/2) 0 (by norm_num) (by norm_num) (le_refl 0) (by norm_num)⟩

/-- C9 (amended): neither the constructor nor `setConfig` validates `fps` or
`cycleDuration_ms`: every supplied value, including non-positive ones, is
stored verbatim by the nullish-coalescing merge and no error is raised. -/
theorem setConfig_accepts_nonpositive (s : Anim) (t0 v w : ℚ)
    (hv : v ≤ 0) (hw : w ≤ 0) :
    (setConfig s { fps? := some v }).fps = v ∧
    (setConfig s { cycleDuration_ms? := some w }).cycleDuration_ms = w ∧
    (construct t0 { fps? := some v, cycleDuration_ms? := some w }).fps = v ∧
    (construct t0 { fps? := some v, cycleDuration_ms? := some w }).cycleDuration_ms = w :=
  ⟨rfl, rfl, rfl, rfl⟩

/-- Witness: `setConfig` and the constructor with `fps = -5` and
`cycleDuration_ms = -3`. -/
theorem setConfig_accepts_nonpositive_witness :
    ((-5 : ℚ) ≤ 0) ∧ ((-3 : ℚ) ≤ 0) ∧
    ((setConfig (defaultAnim 0) { fps? := some (-5) }).fps = -5 ∧
     (setConfig (defaultAnim 0) { cycleDuration_ms? := some (-3) }).cycleDuration_ms = -3 ∧
     (construct 0 { fps? := some (-5), cycleDuration_ms? := some (-3) }).fps = -5 ∧
     (construct 0 { fps? := some (-5), cycleDuration_ms? := some (-3) }).cycleDuration_ms = -3) :=
  ⟨by norm_num, by norm_num,
    setConfig_accepts_nonpositive (defaultAnim 0) 0 (-5) (-3) (by norm_num) (by norm_num)⟩

/-- C9 counterexample: `setConfig` with `fps = -5` stores `-5` (and with
`cycleDuration_ms = -3` stores `-3`) — the values are silently accepted
rather than rejected with a configuration error. -/
theorem setConfig_nonpositive_counterexample :
    (setConfig (defaultAnim 0) { fps? := some (-5) }).fps = -5 ∧
    (setConfig (defaultAnim 0) { cycleDuration_ms? := some (-3) }).cycleDuration_ms = -3 ∧
    ((-5 : ℚ) ≤ 0) ∧ ((-3 : ℚ) ≤ 0) :=
  ⟨rfl, rfl, by norm_num, by norm_num⟩

/-- C10 (amended): only the arc anchor is validated at the point of use:
`calculateOffsets` raises the configuration error for any anchor outside
the recognized set, while an unrecognized line cap silently falls back to
the flat-cap path commands and an unrecognized timing function silently
falls back to the linear transformation — neither raises an error. -/
theorem enum_fallbacks_only_anchor_validated (radius : ℚ) (arcs : ℕ)
    (radiusDelta arcWidth : ℚ) (anchor : String) (arc_i : ℕ) (arcWidthDiff : ℚ)
    (tf : String) (custom : Option (ℝ → ℝ)) (p rest offset : ℝ)
    (lineCap : String) (tailCap : Option String)
    (ha1 : anchor ≠ "centre") (ha2 : anchor ≠ "inner") (ha3 : anchor ≠ "outer")
    (ht1 : tf ≠ "sinusoidal") (ht2 : tf ≠ "quadratic") (ht3 : tf ≠ "cubic")
    (ht4 : tf ≠ "custom")
    (hc1 : lineCap ≠ "rounded") (hc2 : tailCap ≠ some "rounded") :
    calculateOffsets radius arcs radiusDelta arcWidth anchor arc_i arcWidthDiff =
      .error ("Invalid arcAnchor value: " ++ anchor) ∧
    getProgress tf custom p rest offset = .ok (getProgressLinear p rest offset) ∧
    (∀ (α : Type) (inner outer mid guide : α),
      tailCapCommands lineCap tailCap inner outer mid guide = [.lineTo outer]) := by
  refine ⟨?_, ?_, ?_⟩
  · simp [calculateOffsets, ha1, ha2, ha3]
  · simp [getProgress, ht1, ht2, ht3, ht4]
  · intro α inner outer mid guide
    simp [tailCapCommands, hc1, hc2]

/-- Witness: the fallbacks at anchor `"bogus"`, timing function
`"unknown"`, line caps `"flat"`/none. -/
theorem enum_fallbacks_only_anchor_validated_witness :
    (("bogus" : String) ≠ "centre") ∧ (("bogus" : String) ≠ "inner") ∧
    (("bogus" : String) ≠ "outer") ∧ (("unknown" : String) ≠ "sinusoidal") ∧
    (("unknown" : String) ≠ "quadratic") ∧ (("unknown" : String) ≠ "cubic") ∧
    (("unknown" : String) ≠ "custom") ∧ (("flat" : String) ≠ "rounded") ∧
    ((none : Option String) ≠ some "rounded") ∧
    (calculateOffsets 10 1 0 10 "bogus" 0 0 =
        .error ("Invalid arcAnchor value: " ++ "bogus") ∧
      getProgress "unknown" (some (fun _ => 0)) (1/2) 0 0 =
        .ok (getProgressLinear (1/2) 0 0) ∧
      (∀ (α : Type) (inner outer mid guide : α),
        tailCapCommands "flat" none inner outer mid guide = [.lineTo outer])) :=
  ⟨by decide, by decide, by decide, by decide, by decide, by decide, by decide,
    by decide, by decide,
    enum_fallbacks_only_anchor_validated 10 1 0 10 "bogus" 0 0 "unknown"
      (some (fun _ => 0)) (1/2) 0 0 "flat" none (by decide) (by decide) (by decide)
      (by decide) (by decide) (by decide) (by decide) (by decide) (by decide)⟩

/-- C10 counterexample: a timing-function value outside the built-in set
does not raise an error at the point of use — `getProgress` falls back to
the linear transformation and returns `ok (1/2)` at progress `1/2`. -/
theorem getProgress_unknown_timing_counterexample :
    getProgress "bogus" (some (fun _ => 0)) (1/2) 0 0 = .ok ((1 : ℝ)/2) ∧
    (getProgress "bogus" (some (fun _ => 0)) (1/2) 0 0).isOk = true := by
  constructor
  · simp [getProgress, getProgressLinear, offsetProgress]
    norm_num
  · simp [getProgress, Except.isOk, Except.toBool]

end Animautomata
